import Mathlib

/-!
Shallow embedding of the file-replication GitHub action
(`src/unnamed/part_000`, the `run` entry point) and of its API helper module
(`src/lib/api-calls.js`).

Modelling conventions:
- Remote and local file systems are oracles (`String → FileResp`,
  `String → Option String`) packaged in `RepoEnv` / `RunEnv`; each network
  call is recorded as an `Event` so theorems can speak about which calls
  were made and in which order.
- JavaScript values that the source only observes through `toString()` are
  embedded through `jsToString`: the octokit `getContent` response is a plain
  object (stringifies to "[object Object]"), the `false` returned by
  `getFile` on 404 stringifies to "false".
- `for (const path of filesToReplicate)` with `filesToReplicate` undefined
  throws a TypeError; `for (const path in filesToRemove)` iterates the own
  enumerable keys of the array, i.e. the index strings "0", "1", ... (and is
  a no-op on undefined). Both behaviours are embedded literally.
- Thrown JS errors are `Except.error` carrying the message the source builds;
  `core.info` / `core.warning` calls that the claims talk about are recorded
  as `LogEntry` values (debug lines and group markers are not modelled).
- Functions from `src/lib/utils.js` are not part of the provided sources;
  each of their embeddings carries a doc comment starting with
  "Modelled from the spec:" and follows the spec text only.
-/

deriving instance DecidableEq for Except

namespace ManageFiles

/-- Log severity used by the action (via the actions toolkit). -/
inductive LogLevel
  | info
  | warning
  deriving DecidableEq, Repr

/-- One `core.info` / `core.warning` line. -/
structure LogEntry where
  level : LogLevel
  msg : String
  deriving DecidableEq, Repr

/-- Observable network interactions, in the order they are performed. -/
inductive Event
  | selectionEv
  | listReposEv
  | getRepoEv
  | getFileEv (path : String)
  | fileExistsEv (path : String)
  | getRefOidEv (branch : String)
  | createRefEv (branch : String) (oid : String)
  | commitAttemptEv (attempt : Nat)
  | prAttemptEv (attempt : Nat)
  | sleepEv (ms : Nat)
  deriving DecidableEq, Repr

/-- Mutating remote calls: ref creation, commit, PR creation. -/
def Event.isMutation : Event → Bool
  | .createRefEv _ _ => true
  | .commitAttemptEv _ => true
  | .prAttemptEv _ => true
  | _ => false

/-- Commit-attempt events, for counting commit API calls. -/
def Event.isCommitAttempt : Event → Bool
  | .commitAttemptEv _ => true
  | _ => false

/-- Result of `octokit.repos.getContent` as observed by `getFile`
(`src/lib/api-calls.js` lines 189-204): success with the file content,
a 404, or any other API error with its message. -/
inductive FileResp
  | found (content : String)
  | missing
  | apiErr (msg : String)
  deriving DecidableEq, Repr

/-- The JavaScript value `getFile` returns: the raw response object on
success, or `false` on 404. The content is carried but the source never
reads it. -/
inductive GetFileValue
  | responseObj (content : String)
  | falseVal
  deriving DecidableEq, Repr

/-- JavaScript `toString()` of a `GetFileValue`: a plain object stringifies
to "[object Object]" (Object.prototype.toString), `false` to "false". -/
def jsToString : GetFileValue → String
  | .responseObj _ => "[object Object]"
  | .falseVal => "false"

/-- Error message built by `getFile` for a non-404 API failure
(`src/lib/api-calls.js` line 201). -/
def getFileErrMsg (repoName p m : String) : String :=
  "Unable to check if file " ++ p ++ " exists in the " ++ repoName ++ " repository: " ++ m

/-- `getFile` (`src/lib/api-calls.js` lines 189-204): returns the response
object, `false` on a 404, and throws on any other error. -/
def getFileEmbed (repoName p : String) : FileResp → Except String GetFileValue
  | .found c => .ok (.responseObj c)
  | .missing => .ok .falseVal
  | .apiErr m => .error (getFileErrMsg repoName p m)

/-- A single addition of GitHub's `createCommitOnBranch` fileChanges input. -/
structure FileAddition where
  path : String
  destinationPath : String
  base64Content : String
  deriving DecidableEq, Repr

/-- A single deletion of the fileChanges input. -/
structure FileDeletion where
  destinationPath : String
  deriving DecidableEq, Repr

/-- Base64 alphabet. -/
def base64Chars : List Char :=
  "ABCDEFGHIJKLMNOPQRSTUVWXYZabcdefghijklmnopqrstuvwxyz0123456789+/".toList

/-- Character of the base64 alphabet at a 6-bit index. -/
def b64c (n : Nat) : Char := base64Chars.getD n 'A'

/-- Standard base64 of a byte list. -/
def base64EncodeBytes : List Nat → List Char
  | [] => []
  | [a] => [b64c (a / 4), b64c (a % 4 * 16), '=', '=']
  | [a, b] => [b64c (a / 4), b64c (a % 4 * 16 + b / 16), b64c (b % 16 * 4), '=']
  | a :: b :: c :: rest =>
    b64c (a / 4) :: b64c (a % 4 * 16 + b / 16) :: b64c (b % 16 * 4 + c / 64) ::
      b64c (c % 64) :: base64EncodeBytes rest

/-- Base64 of the UTF-8 bytes of a string. -/
def base64Encode (s : String) : String :=
  String.mk (base64EncodeBytes (s.toUTF8.toList.map UInt8.toNat))

/-- Modelled from the spec: the `destination` path rewrite of §4.3 is applied
uniformly to every replicated or removed path (the rewrite itself lives in
`src/lib/utils.js`, which is not among the provided sources). -/
def destPath (destination p : String) : String :=
  if destination = "" then p else destination ++ "/" ++ p

/-- Modelled from the spec: `encodeAdditions` lives in `src/lib/utils.js`
(not among the provided sources). Per §3 and §4.3 it encodes files into
`FileAddition` records carrying the destination-rewritten path and the
base64 of the local content. The call site in `src/unnamed/part_000`
line 126 passes the whole `filesToReplicate` list. -/
def encodeAdditions (files : List String) (localFiles : String → Option String)
    (destination : String) : List FileAddition :=
  files.map (fun f => ⟨f, destPath destination f, base64Encode ((localFiles f).getD "")⟩)

/-- Modelled from the spec: `encodeDeletions` lives in `src/lib/utils.js`
(not among the provided sources). Per §3 a deletion carries the
destination-rewritten path; the call site in `src/unnamed/part_000`
line 134 passes the whole `filesToRemove` list. -/
def encodeDeletions (files : List String) (destination : String) : List FileDeletion :=
  files.map (fun f => ⟨destPath destination f⟩)

/-- Modelled from the spec: `getBranchName` lives in `src/lib/utils.js`
(not among the provided sources). Per §4.4 the branch name is deterministic:
the configured custom name when present, otherwise a default scheme built
from the trigger commit id (the spec scenarios use `sync/<id>`). -/
def getBranchName (customBranchName commitId : String) : String :=
  if customBranchName ≠ "" then customBranchName else "sync/" ++ commitId

/-- Outcome of the `createRef` GraphQL mutation inside `createBranch`:
success, an error exposing an HTTP status, or an error without one. -/
inductive RefCreateResult
  | ok
  | errStatus (status : Nat) (msg : String)
  | errNoStatus (msg : String)
  deriving DecidableEq, Repr

/-- Per-attempt outcome of the `createCommitOnBranch` GraphQL call:
a commit url, a null response, or a thrown error. -/
inductive CommitResp
  | ok (url : String)
  | nullResp
  | err (msg : String)
  deriving DecidableEq, Repr

/-- Per-attempt outcome of the `createPullRequest` GraphQL call. -/
inductive PrResult
  | ok (url : String)
  | tooQuickly
  | otherErr (msg : String)
  deriving DecidableEq, Repr

/-- Everything one iteration of the per-repository loop can observe:
the repository descriptor fields the source reads, plus oracles for every
remote response. `commitHeadOid`, `commitResp` and `pr` are indexed by the
attempt number (starting at 1) because the source retries those calls. -/
structure RepoEnv where
  name : String
  defaultBranch : String
  ignored : Bool
  remote : String → FileResp
  localFiles : String → Option String
  defaultHeadOid : Except String String
  createRef : RefCreateResult
  commitHeadOid : Nat → Except String String
  commitResp : Nat → CommitResp
  pr : Nat → PrResult

/-- Configuration slice consumed by one iteration of the repository loop. -/
structure RepoConfig where
  destination : String
  customBranchName : String
  commitId : String
  commitMessage : String

/-- Node `readFile` rejection message for a missing local file (modulo the
absolute-path detail of the real message). -/
def enoentMsg (p : String) : String :=
  "ENOENT: no such file or directory, open " ++ p

/-- Result accumulator of the additions loop. -/
structure AddLoopOut where
  events : List Event
  pushes : List (List FileAddition)
  err : Option String
  deriving DecidableEq, Repr

/-- Result accumulator of the deletions loop. -/
structure DelLoopOut where
  events : List Event
  pushes : List (List FileDeletion)
  err : Option String
  deriving DecidableEq, Repr

/-- The additions half of step 4a (`src/unnamed/part_000` lines 114-128):
for each path, `getFile` on the default branch, `readFile` locally, then
compare `sourceContents.toString()` with `targetContentsBefore.toString()`
(the latter being the raw response object or `false`); on mismatch push
`encodeAdditions(filesToReplicate, destination)`. -/
def additionsLoop (repoName : String) (remote : String → FileResp)
    (localFiles : String → Option String) (allFiles : List String)
    (destination : String) : List String → AddLoopOut
  | [] => ⟨[], [], none⟩
  | p :: rest =>
    match getFileEmbed repoName p (remote p) with
    | .error m => ⟨[.getFileEv p], [], some m⟩
    | .ok target =>
      match localFiles p with
      | none => ⟨[.getFileEv p], [], some (enoentMsg p)⟩
      | some src =>
        let out := additionsLoop repoName remote localFiles allFiles destination rest
        if src ≠ jsToString target then
          ⟨.getFileEv p :: out.events,
           encodeAdditions allFiles localFiles destination :: out.pushes, out.err⟩
        else
          ⟨.getFileEv p :: out.events, out.pushes, out.err⟩

/-- The deletions half of step 4a (`src/unnamed/part_000` lines 130-136):
`fileExists` for each iterated key; when it exists push
`encodeDeletions(filesToRemove, destination)`. The iterated keys are
supplied by `forInKeys`. -/
def deletionsLoop (repoName : String) (remote : String → FileResp)
    (allRemove : List String) (destination : String) : List String → DelLoopOut
  | [] => ⟨[], [], none⟩
  | p :: rest =>
    match remote p with
    | .apiErr m => ⟨[.fileExistsEv p], [], some (getFileErrMsg repoName p m)⟩
    | .found _ =>
      let out := deletionsLoop repoName remote allRemove destination rest
      ⟨.fileExistsEv p :: out.events, encodeDeletions allRemove destination :: out.pushes, out.err⟩
    | .missing =>
      let out := deletionsLoop repoName remote allRemove destination rest
      ⟨.fileExistsEv p :: out.events, out.pushes, out.err⟩

/-- Keys iterated by `for (const path in filesToRemove)`: the index strings
of the array ("0", "1", ...); a `for...in` over `undefined` iterates
nothing. -/
def forInKeys : Option (List String) → List String
  | none => []
  | some rs => (List.range rs.length).map (fun i => toString i)

/-- Result of the whole diff step 4a. -/
structure DiffOut where
  events : List Event
  addPushes : List (List FileAddition)
  delPushes : List (List FileDeletion)
  err : Option String
  deriving DecidableEq, Repr

/-- Step 4a (`src/unnamed/part_000` lines 112-136). `ftr`/`ftrm` are
`filesToReplicate`/`filesToRemove`; `none` embeds the JavaScript value
`undefined` (left unset when `patterns_to_remove` is used). Iterating
`undefined` with `for...of` throws a TypeError before any call is made. -/
def diffStep (destination : String) (ftr ftrm : Option (List String))
    (env : RepoEnv) : DiffOut :=
  match ftr with
  | none => ⟨[], [], [], some "TypeError: filesToReplicate is not iterable"⟩
  | some files =>
    let a := additionsLoop env.name env.remote env.localFiles files destination files
    match a.err with
    | some m => ⟨a.events, a.pushes, [], some m⟩
    | none =>
      let d := deletionsLoop env.name env.remote (ftrm.getD []) destination (forInKeys ftrm)
      ⟨a.events ++ d.events, a.pushes, d.pushes, d.err⟩

/-- Result of `createBranch`. -/
structure BranchOut where
  logs : List LogEntry
  events : List Event
  res : Except String Bool
  deriving DecidableEq, Repr

/-- `createBranch` (`src/lib/api-calls.js` lines 155-187): fetch the default
branch head oid, then `createRef` at that oid; a 422 means the branch already
exists and yields `true`; success yields `false`; any other failure throws.
A failure of the oid fetch itself propagates unwrapped (it happens outside
the try block). -/
def createBranchEmbed (env : RepoEnv) (nb : String) : BranchOut :=
  let lg : LogEntry := ⟨.info, "Creating branch " ++ nb ++ " in the " ++ env.name ++ " repository"⟩
  match env.defaultHeadOid with
  | .error m => ⟨[lg], [.getRefOidEv env.defaultBranch], .error m⟩
  | .ok oid =>
    match env.createRef with
    | .ok => ⟨[lg], [.getRefOidEv env.defaultBranch, .createRefEv nb oid], .ok false⟩
    | .errStatus s m =>
      if s = 422 then
        ⟨[lg, ⟨.info, "Branch " ++ nb ++ " already exists in the " ++ env.name ++ " repository"⟩],
         [.getRefOidEv env.defaultBranch, .createRefEv nb oid], .ok true⟩
      else
        ⟨[lg], [.getRefOidEv env.defaultBranch, .createRefEv nb oid],
         .error ("Unable to create a branch " ++ nb ++ " in the " ++ env.name ++ " repository: " ++ m)⟩
    | .errNoStatus m =>
      ⟨[lg], [.getRefOidEv env.defaultBranch, .createRefEv nb oid],
       .error ("Unable to create a branch " ++ nb ++ " in the " ++ env.name ++ " repository: " ++ m)⟩

/-- Result of `commitFiles`: `ok none` embeds the `undefined` the source
returns when the retry loop is exhausted without success. -/
structure CommitOut where
  logs : List LogEntry
  events : List Event
  res : Except String (Option String)
  deriving DecidableEq, Repr

/-- The retry loop of `commitFiles` (`src/lib/api-calls.js` lines 225-267):
before each attempt re-fetch the branch head oid; a null response sleeps
1 second and retries (up to `tries` attempts in total); any error whose
message is not "Response is null" is rethrown wrapped; running out of tries
falls through, returning `undefined`. -/
def commitFilesLoop (repoName branch : String) (headOid : Nat → Except String String)
    (resp : Nat → CommitResp) : Nat → Nat → List Event × Except String (Option String)
  | 0, _ => ([], .ok none)
  | t + 1, attempt =>
    let n := attempt + 1
    match headOid n with
    | .error m =>
      if m = "Response is null" then
        let out := commitFilesLoop repoName branch headOid resp t n
        (Event.getRefOidEv branch :: Event.sleepEv 1000 :: out.1, out.2)
      else
        ([Event.getRefOidEv branch],
         .error ("Unable to commit changes to the " ++ repoName ++ " repository: " ++ m))
    | .ok _ =>
      match resp n with
      | .ok url => ([Event.getRefOidEv branch, Event.commitAttemptEv n], .ok (some url))
      | .nullResp =>
        let out := commitFilesLoop repoName branch headOid resp t n
        (Event.getRefOidEv branch :: Event.commitAttemptEv n :: Event.sleepEv 1000 :: out.1, out.2)
      | .err m =>
        ([Event.getRefOidEv branch, Event.commitAttemptEv n],
         .error ("Unable to commit changes to the " ++ repoName ++ " repository: " ++ m))

/-- `commitFiles` (`src/lib/api-calls.js` lines 211-272) with its fixed
budget of 10 tries. The fileChanges payload and commit message are passed to
the API but do not influence control flow. -/
def commitFilesEmbed (repoName branch : String) (headOid : Nat → Except String String)
    (resp : Nat → CommitResp)
    (_fileChanges : List (List FileAddition) × List (List FileDeletion))
    (_commitMessage : String) : CommitOut :=
  let out := commitFilesLoop repoName branch headOid resp 10 0
  ⟨[⟨.info, "Committing changes to the " ++ repoName ++ " repository"⟩], out.1, out.2⟩

/-- Result of `createPr`: `ok none` embeds the `undefined` returned when all
retries were consumed by "was submitted too quickly" errors. -/
structure PrOut where
  events : List Event
  res : Except String (Option String)
  deriving DecidableEq, Repr

/-- The retry loop of `createPr` (`src/lib/api-calls.js` lines 129-148):
5 retries, a 5 second sleep before every attempt, only the
"was submitted too quickly" error is swallowed; any other error is rethrown
wrapped, aborting the loop at once. -/
def createPrLoop (pr : Nat → PrResult) : Nat → Nat → PrOut
  | 0, _ => ⟨[], .ok none⟩
  | fuel + 1, count =>
    match pr (count + 1) with
    | .ok url => ⟨[.sleepEv 5000, .prAttemptEv (count + 1)], .ok (some url)⟩
    | .otherErr m =>
      ⟨[.sleepEv 5000, .prAttemptEv (count + 1)],
       .error ("Unable to create a PR: Error: " ++ m)⟩
    | .tooQuickly =>
      let rest := createPrLoop pr fuel (count + 1)
      ⟨.sleepEv 5000 :: .prAttemptEv (count + 1) :: rest.events, rest.res⟩

/-- `createPr` (`src/lib/api-calls.js` lines 106-153) with its fixed budget
of 5 retries. -/
def createPrEmbed (pr : Nat → PrResult) : PrOut := createPrLoop pr 5 0

/-- The expected shape of the events of `createPr`: `k` attempts, each
preceded by a 5000 ms sleep, numbered from `count + 1`. -/
def prTrace : Nat → Nat → List Event
  | _, 0 => []
  | count, k + 1 =>
    .sleepEv 5000 :: .prAttemptEv (count + 1) :: prTrace (count + 1) k

/-- JavaScript truthiness of the `pullRequestUrl` variable
(`undefined` and the empty string are falsy). -/
def prTruthy : Option String → Bool
  | some u => u != ""
  | none => false

/-- Result of the branch → commit → PR phase for one repository. -/
structure MutOut where
  logs : List LogEntry
  events : List Event
  err : Option String
  deriving DecidableEq, Repr

/-- Steps 4b-4fe (`src/unnamed/part_000` lines 138-178): create the branch,
commit, then try to create the PR inside its own try/catch; a PR failure is
swallowed, with an informational line only when the branch pre-existed; the
closing summary line is informational in every case. -/
def mutationPhase (rc : RepoConfig) (env : RepoEnv)
    (fileChanges : List (List FileAddition) × List (List FileDeletion)) : MutOut :=
  let nb := getBranchName rc.customBranchName rc.commitId
  let b := createBranchEmbed env nb
  match b.res with
  | .error m => ⟨b.logs, b.events, some m⟩
  | .ok already =>
    let bLog : LogEntry :=
      if already then ⟨.info, "Branch " ++ nb ++ " already exists in the " ++ env.name ++ " repo"⟩
      else ⟨.info, "Branch " ++ nb ++ " was created in the " ++ env.name ++ " repo"⟩
    let c := commitFilesEmbed env.name nb env.commitHeadOid env.commitResp fileChanges rc.commitMessage
    match c.res with
    | .error m => ⟨b.logs ++ [bLog] ++ c.logs, b.events ++ c.events, some m⟩
    | .ok commitUrl =>
      let cLog : LogEntry :=
        ⟨.info, "Commit was created in the " ++ env.name ++ " repo -> " ++ commitUrl.getD "undefined"⟩
      let p := createPrEmbed env.pr
      let prUrl : Option String := match p.res with | .ok u => u | .error _ => none
      let catchLogs : List LogEntry :=
        match p.res with
        | .error _ =>
          if already then
            [⟨.info, "PR creation for " ++ env.name ++ " failed as the branch was there already. Insted only push was performed to existing " ++ nb ++ " branch"⟩]
          else []
        | .ok _ => []
      let finalLog : LogEntry :=
        if prTruthy prUrl then
          ⟨.info, "Workflow finished with success and PR for " ++ env.name ++ " is created -> " ++ prUrl.getD ""⟩
        else if already then
          ⟨.info, "Workflow finished without PR creation for " ++ env.name ++ ". Insted push was performed to existing " ++ nb ++ " branch"⟩
        else
          ⟨.info, "Unable to create a PR because of timeouts. Create PR manually from the branch " ++ nb ++ " that was already created in the upstream"⟩
      ⟨b.logs ++ [bLog] ++ c.logs ++ [cLog] ++ catchLogs ++ [finalLog],
       b.events ++ c.events ++ p.events, none⟩

/-- Everything one iteration of the repository loop produces. A `some` in
`err` is an error that escaped the iteration body (to be caught by the
loop's catch). -/
structure ProcOut where
  logs : List LogEntry
  events : List Event
  err : Option String
  deriving DecidableEq, Repr

/-- The body of the per-repository loop (`src/unnamed/part_000` lines
103-184): skip ignored repositories, diff, and when the accumulated
fileChanges object is truthy on either key run the mutation phase. -/
def processRepo (rc : RepoConfig) (ftr ftrm : Option (List String))
    (env : RepoEnv) : ProcOut :=
  if env.ignored then ⟨[], [], none⟩
  else
    let d := diffStep rc.destination ftr ftrm env
    match d.err with
    | some m => ⟨[], d.events, some m⟩
    | none =>
      if d.addPushes.isEmpty ∧ d.delPushes.isEmpty then
        ⟨[⟨.info, "No changes in repo " ++ env.name ++ " detected"⟩], d.events, none⟩
      else
        let m := mutationPhase rc env (d.addPushes, d.delPushes)
        ⟨m.logs, d.events ++ m.events, m.err⟩

/-- The catch of the per-repository loop (`src/unnamed/part_000` lines
185-189): any error is logged as a warning and swallowed. -/
def processRepoCaught (rc : RepoConfig) (ftr ftrm : Option (List String))
    (env : RepoEnv) : ProcOut :=
  match (processRepo rc ftr ftrm env).err with
  | none => processRepo rc ftr ftrm env
  | some m =>
    ⟨(processRepo rc ftr ftrm env).logs ++
       [⟨.warning, "Failed replicating files for this repo: " ++ m⟩],
     (processRepo rc ftr ftrm env).events, none⟩

/-- The per-repository loop itself (`src/unnamed/part_000` line 102):
every repository is processed, each inside its own try/catch. -/
def runRepos (rc : RepoConfig) (ftr ftrm : Option (List String)) :
    List RepoEnv → List ProcOut
  | [] => []
  | e :: rest => processRepoCaught rc ftr ftrm e :: runRepos rc ftr ftrm rest

/-- The inputs the top of `run` reads (trigger, token, action inputs,
event payload). -/
structure RunConfig where
  triggerEventName : String
  gitHubToken : Option String
  patternsToIgnore : String
  patternsToInclude : String
  patternsToRemove : String
  commitMessage : String
  branches : String
  destination : String
  customBranchName : String
  repoNameManual : Option String
  commits : List String

/-- Oracles for the run-level network steps: the file-selection helper, the
single-repository fetch and the full listing. -/
structure RunEnv where
  selection : Except String (List String × List String)
  getRepoResult : Except String RepoEnv
  reposResult : Except String (List RepoEnv)

/-- Overall run status: `failed m` is a `core.setFailed(m)` call. -/
inductive RunStatus
  | ok
  | failed (msg : String)
  deriving DecidableEq, Repr

/-- The `core.setFailed` message of the mutual-exclusivity check
(`src/unnamed/part_000` line 53). -/
def mutualExclusiveMsg : String :=
  "Fields patterns_to_include and patterns_to_remove are mutually exclusive. If you want to remove files from repos then do not use patterns_to_include."

/-- Line 50 of `src/unnamed/part_000`: on push the commit id is read from
`eventPayload.commits[0].id` (a TypeError if the payload has no commits),
otherwise the empty string. -/
def computeCommitId (cfg : RunConfig) : Except String String :=
  if cfg.triggerEventName = "push" then
    match cfg.commits with
    | [] => .error "TypeError: Cannot read properties of undefined (reading id)"
    | c :: _ => .ok c
  else
    .ok ""

/-- JavaScript truthiness of an optional string input. -/
def truthyOpt : Option String → Bool
  | some s => s != ""
  | none => false

/-- Step 1 (`src/unnamed/part_000` lines 64-74): when `patterns_to_remove`
is set the selection helper is never called and both variables stay
`undefined`; otherwise the helper runs, and an empty selection ends the run
early (`.ok none`). -/
def fileSelectionStep (cfg : RunConfig) (renv : RunEnv) :
    List Event × Except String (Option (Option (List String) × Option (List String))) :=
  if cfg.patternsToRemove ≠ "" then ([], .ok (some (none, none)))
  else
    match renv.selection with
    | .error e => ([Event.selectionEv], .error e)
    | .ok (fr, frm) =>
      if fr.isEmpty ∧ frm.isEmpty then ([Event.selectionEv], .ok none)
      else ([Event.selectionEv], .ok (some (some fr, some frm)))

/-- Step 2 (`src/unnamed/part_000` lines 82-87): a manually named repository
on workflow_dispatch, otherwise the full listing. -/
def selectedRepos (cfg : RunConfig) (renv : RunEnv) :
    List Event × Except String (List RepoEnv) :=
  if cfg.triggerEventName = "workflow_dispatch" ∧ truthyOpt cfg.repoNameManual then
    ([Event.getRepoEv], renv.getRepoResult.map (fun e => [e]))
  else
    ([Event.listReposEv], renv.reposResult)

/-- Steps 2-4 of `run` given the outcome of the file-selection step:
repository selection, then the per-repository loop. -/
def runWithSelection (cfg : RunConfig) (renv : RunEnv) (cid : String)
    (evs1 : List Event) (ftr ftrm : Option (List String)) :
    RunStatus × List Event × List ProcOut :=
  match selectedRepos cfg renv with
  | (evs2, .error e) => (.failed ("Action failed because of: " ++ e), evs1 ++ evs2, [])
  | (evs2, .ok repos) =>
    let rc : RepoConfig := ⟨cfg.destination, cfg.customBranchName, cid, cfg.commitMessage⟩
    (.ok, evs1 ++ evs2 ++ ((runRepos rc ftr ftrm repos).map ProcOut.events).flatten,
     runRepos rc ftr ftrm repos)

/-- Steps 1-4 of `run`: the file-selection step, then the rest. -/
def runSelection (cfg : RunConfig) (renv : RunEnv) (cid : String) :
    RunStatus × List Event × List ProcOut :=
  match fileSelectionStep cfg renv with
  | (evs1, .error e) => (.failed ("Action failed because of: " ++ e), evs1, [])
  | (evs1, .ok none) => (.ok, evs1, [])
  | (evs1, .ok (some (ftr, ftrm))) => runWithSelection cfg renv cid evs1 ftr ftrm

/-- The mutual-exclusivity guard of `src/unnamed/part_000` lines 52-55,
followed by the rest of the run. -/
def runChecked (cfg : RunConfig) (renv : RunEnv) (cid : String) :
    RunStatus × List Event × List ProcOut :=
  if cfg.patternsToRemove ≠ "" ∧ cfg.patternsToInclude ≠ "" then
    (.failed mutualExclusiveMsg, [], [])
  else runSelection cfg renv cid

/-- The `run` function of `src/unnamed/part_000`: trigger check, input
reading, the mutual-exclusivity guard, file selection, repository selection,
then the per-repository loop. Errors escaping the big try block become a
`setFailed` with the "Action failed because of" prefix. -/
def runAction (cfg : RunConfig) (renv : RunEnv) :
    RunStatus × List Event × List ProcOut :=
  if cfg.triggerEventName ≠ "push" ∧ cfg.triggerEventName ≠ "workflow_dispatch" then
    (.failed "This GitHub Action works only when triggered by \"push\" or \"workflow_dispatch\" webhooks.", [], [])
  else
    match cfg.gitHubToken with
    | none => (.failed "Action failed because of: Error: Input required and not supplied: github_token", [], [])
    | some _ =>
      match computeCommitId cfg with
      | .error e => (.failed ("Action failed because of: " ++ e), [], [])
      | .ok cid => runChecked cfg renv cid

/-! Concrete environments exercising the per-repository processing. -/

/-- Repository configuration with no destination rewrite and no custom
branch name, commit id abc123. -/
def c1Rc : RepoConfig := ⟨"", "", "abc123", "sync files"⟩

/-- A repository whose remote README.md is byte-identical to the local one
and with no removal targets; every mutation oracle succeeds. -/
def c1Env : RepoEnv :=
  { name := "spoke1", defaultBranch := "main", ignored := false,
    remote := fun p => if p = "README.md" then .found "hello" else .missing,
    localFiles := fun p => if p = "README.md" then some "hello" else none,
    defaultHeadOid := .ok "d0", createRef := .ok,
    commitHeadOid := fun _ => .ok "h0",
    commitResp := fun _ => .ok "curl", pr := fun _ => .ok "purl" }

/-- Claim C1: for a repository whose remote content is byte-identical to the
local content for every replicated path, with no removal targets existing
remotely, the claim predicts an empty ChangeSet and no branch/commit/PR
call. The code instead compares the local bytes against the stringified
response object "[object Object]", records a spurious addition, and performs
all three mutations. -/
theorem c1_identical_content_still_mutates :
    c1Env.remote "README.md" = .found "hello" ∧
    c1Env.localFiles "README.md" = some "hello" ∧
    (diffStep "" (some ["README.md"]) (some []) c1Env).addPushes ≠ [] ∧
    (processRepo c1Rc (some ["README.md"]) (some []) c1Env).events.filter Event.isMutation ≠ [] ∧
    (processRepo c1Rc (some ["README.md"]) (some []) c1Env).err = none := by
  decide

/-- Repository configuration for the C3 environment. -/
def c3Rc : RepoConfig := ⟨"", "", "abc123", "sync files"⟩

/-- A repository where the single replicated file flag.txt is missing
remotely while the local copy holds exactly the bytes "false". -/
def c3Env : RepoEnv :=
  { name := "spoke3", defaultBranch := "main", ignored := false,
    remote := fun _ => .missing,
    localFiles := fun p => if p = "flag.txt" then some "false" else none,
    defaultHeadOid := .ok "d0", createRef := .ok,
    commitHeadOid := fun _ => .ok "h0",
    commitResp := fun _ => .ok "curl", pr := fun _ => .ok "purl" }

/-- Claim C3: a missing remote file is claimed to be treated as empty
content, forcing an addition. The code instead stringifies the `false`
returned by `getFile` and compares the local bytes against the string
"false"; a local file whose content is exactly "false" therefore produces
no addition at all, the ChangeSet stays empty and the repository is
reported as having no changes. -/
theorem c3_missing_remote_no_forced_addition :
    c3Env.remote "flag.txt" = .missing ∧
    c3Env.localFiles "flag.txt" = some "false" ∧
    (diffStep "" (some ["flag.txt"]) (some []) c3Env).addPushes = [] ∧
    (processRepo c3Rc (some ["flag.txt"]) (some []) c3Env).logs =
      [⟨.info, "No changes in repo spoke3 detected"⟩] ∧
    (processRepo c3Rc (some ["flag.txt"]) (some []) c3Env).events.filter Event.isMutation = [] := by
  decide

/-- A repository whose remote has the removal target legacy/old.yml and no
file named "0". -/
def c4Env : RepoEnv :=
  { name := "spoke4", defaultBranch := "main", ignored := false,
    remote := fun p => if p = "legacy/old.yml" then .found "y" else .missing,
    localFiles := fun _ => none,
    defaultHeadOid := .ok "d0", createRef := .ok,
    commitHeadOid := fun _ => .ok "h0",
    commitResp := fun _ => .ok "curl", pr := fun _ => .ok "purl" }

/-- Claim C4: for toRemove = [legacy/old.yml] with that file existing
remotely, the claim predicts one existence check on that path and one
deletion entry. The code iterates `for...in` over the array, so the only
existence check is performed on the index string "0" (which does not exist
remotely) and no deletion entry is produced. -/
theorem c4_for_in_checks_indices_not_paths :
    c4Env.remote "legacy/old.yml" = .found "y" ∧
    c4Env.remote "0" = .missing ∧
    diffStep "" (some []) (some ["legacy/old.yml"]) c4Env =
      ⟨[.fileExistsEv "0"], [], [], none⟩ := by
  decide

/-- Repository configuration for the C9 environment. -/
def c9Rc : RepoConfig := ⟨"", "", "abc123", "sync files"⟩

/-- A repository whose commit API returns a null response on every attempt,
while everything else succeeds; the local README.md differs from the remote
so the mutation phase is entered. -/
def c9Env : RepoEnv :=
  { name := "spoke9", defaultBranch := "main", ignored := false,
    remote := fun _ => .missing,
    localFiles := fun p => if p = "README.md" then some "hello" else none,
    defaultHeadOid := .ok "d0", createRef := .ok,
    commitHeadOid := fun _ => .ok "h0",
    commitResp := fun _ => .nullResp, pr := fun _ => .ok "purl" }

/-- Claim C9: exhausting the 10 commit retries is claimed to escalate to a
repository-level failure. The code makes exactly 10 attempts with a 1 second
sleep after each null response, then falls out of the loop returning
`undefined`: the orchestration treats that as success, logs
"Commit was created ... -> undefined" and proceeds to PR creation. -/
theorem c9_commit_retry_exhaustion_not_escalated :
    (commitFilesEmbed "spoke9" "sync/abc123" c9Env.commitHeadOid c9Env.commitResp ([], []) "sync files").res = .ok none ∧
    ((commitFilesEmbed "spoke9" "sync/abc123" c9Env.commitHeadOid c9Env.commitResp ([], []) "sync files").events.filter
      Event.isCommitAttempt).length = 10 ∧
    ((commitFilesEmbed "spoke9" "sync/abc123" c9Env.commitHeadOid c9Env.commitResp ([], []) "sync files").events.filter
      (fun e => e == Event.sleepEv 1000)).length = 10 ∧
    (processRepo c9Rc (some ["README.md"]) (some []) c9Env).err = none ∧
    (⟨.info, "Commit was created in the spoke9 repo -> undefined"⟩ : LogEntry) ∈
      (processRepo c9Rc (some ["README.md"]) (some []) c9Env).logs ∧
    Event.prAttemptEv 1 ∈ (processRepo c9Rc (some ["README.md"]) (some []) c9Env).events := by
  decide

/-- Repository configuration for the C5 environments. -/
def c5Rc : RepoConfig := ⟨"", "", "abc123", "sync files"⟩

/-- A repository where the branch is freshly created, the commit succeeds
and the PR creation fails with a non-retryable error. -/
def c5Env : RepoEnv :=
  { name := "spoke2", defaultBranch := "main", ignored := false,
    remote := fun _ => .missing,
    localFiles := fun p => if p = "a.txt" then some "x" else none,
    defaultHeadOid := .ok "d0", createRef := .ok,
    commitHeadOid := fun _ => .ok "h1",
    commitResp := fun _ => .ok "curl", pr := fun _ => .otherErr "boom" }

/-- Claim C5 counterexample: branch and commit succeeded on a freshly
created branch and the PR step failed with a non-retryable error, yet every
log line the repository produces is informational — no warning is surfaced,
contradicting the claim that the failure is "surfaced as a warning" in this
case. -/
theorem c5_counterexample_no_warning_on_fresh_branch :
    c5Env.createRef = .ok ∧
    (createPrEmbed c5Env.pr).res = .error "Unable to create a PR: Error: boom" ∧
    (⟨.info, "Commit was created in the spoke2 repo -> curl"⟩ : LogEntry) ∈
      (processRepo c5Rc (some ["a.txt"]) (some []) c5Env).logs ∧
    (processRepo c5Rc (some ["a.txt"]) (some []) c5Env).err = none ∧
    (processRepo c5Rc (some ["a.txt"]) (some []) c5Env).logs.all
      (fun l => l.level == .info) = true := by
  decide

/-! Helper lemmas about the per-repository loop. -/

/-- The loop produces one outcome per repository. -/
lemma runRepos_length (rc : RepoConfig) (ftr ftrm : Option (List String)) :
    ∀ envs : List RepoEnv, (runRepos rc ftr ftrm envs).length = envs.length
  | [] => rfl
  | _ :: rest => by simp [runRepos, runRepos_length rc ftr ftrm rest]

/-- The i-th outcome of the loop depends only on the i-th repository. -/
lemma runRepos_get (rc : RepoConfig) (ftr ftrm : Option (List String)) :
    ∀ (envs : List RepoEnv) (i : Nat) (h1 : i < (runRepos rc ftr ftrm envs).length)
      (h2 : i < envs.length),
      (runRepos rc ftr ftrm envs).get ⟨i, h1⟩ = processRepoCaught rc ftr ftrm (envs.get ⟨i, h2⟩)
  | _ :: _, 0, _, _ => rfl
  | _ :: rest, i + 1, h1, h2 =>
    runRepos_get rc ftr ftrm rest i (by simpa [runRepos] using h1) (by simpa using h2)

/-- The catch swallows every error: no outcome carries one. -/
lemma processRepoCaught_err (rc : RepoConfig) (ftr ftrm : Option (List String))
    (env : RepoEnv) : (processRepoCaught rc ftr ftrm env).err = none := by
  unfold processRepoCaught
  cases h : (processRepo rc ftr ftrm env).err <;> simp [h]

/-- When the body throws, the catch appends exactly the warning line. -/
lemma processRepoCaught_warn (rc : RepoConfig) (ftr ftrm : Option (List String))
    (env : RepoEnv) (m : String) (h : (processRepo rc ftr ftrm env).err = some m) :
    (processRepoCaught rc ftr ftrm env).logs =
      (processRepo rc ftr ftrm env).logs ++
        [⟨.warning, "Failed replicating files for this repo: " ++ m⟩] := by
  unfold processRepoCaught
  simp [h]

/-- Claim C6: the per-repository loop isolates failures. It yields exactly
one outcome per repository; the i-th outcome is a function of the i-th
repository alone (so neither earlier nor later repositories are affected by
another repository's failure); no outcome propagates an error out of the
loop; and a repository whose processing throws gets the warning line naming
the failure appended to its log. -/
theorem c6_per_repo_failure_isolation (rc : RepoConfig) (ftr ftrm : Option (List String))
    (envs : List RepoEnv) :
    (runRepos rc ftr ftrm envs).length = envs.length ∧
    (∀ (i : Nat) (h1 : i < (runRepos rc ftr ftrm envs).length) (h2 : i < envs.length),
      (runRepos rc ftr ftrm envs).get ⟨i, h1⟩ =
        processRepoCaught rc ftr ftrm (envs.get ⟨i, h2⟩)) ∧
    (∀ env : RepoEnv, (processRepoCaught rc ftr ftrm env).err = none) ∧
    (∀ (env : RepoEnv) (m : String), (processRepo rc ftr ftrm env).err = some m →
      (processRepoCaught rc ftr ftrm env).logs =
        (processRepo rc ftr ftrm env).logs ++
          [⟨.warning, "Failed replicating files for this repo: " ++ m⟩]) :=
  ⟨runRepos_length rc ftr ftrm envs, runRepos_get rc ftr ftrm envs,
   fun env => processRepoCaught_err rc ftr ftrm env,
   fun env m h => processRepoCaught_warn rc ftr ftrm env m h⟩

/-- Repository configuration for the C6 witness. -/
def c6Rc : RepoConfig := ⟨"", "", "abc123", "sync files"⟩

/-- A repository whose processing throws: the single replicated file cannot
be read locally. -/
def c6Env : RepoEnv :=
  { name := "spoke6", defaultBranch := "main", ignored := false,
    remote := fun _ => .missing,
    localFiles := fun _ => none,
    defaultHeadOid := .ok "d0", createRef := .ok,
    commitHeadOid := fun _ => .ok "h0",
    commitResp := fun _ => .ok "curl", pr := fun _ => .ok "purl" }

/-- Witness for C6 at a concrete one-repository list whose processing
throws a local read error. -/
theorem c6_per_repo_failure_isolation_witness :
    (runRepos c6Rc (some ["a.txt"]) (some []) [c6Env]).length = 1 ∧
    (runRepos c6Rc (some ["a.txt"]) (some []) [c6Env]).get ⟨0, by decide⟩ =
      processRepoCaught c6Rc (some ["a.txt"]) (some []) c6Env ∧
    (processRepoCaught c6Rc (some ["a.txt"]) (some []) c6Env).err = none ∧
    (processRepoCaught c6Rc (some ["a.txt"]) (some []) c6Env).logs =
      (processRepo c6Rc (some ["a.txt"]) (some []) c6Env).logs ++
        [⟨.warning, "Failed replicating files for this repo: " ++ enoentMsg "a.txt"⟩] := by
  have h := c6_per_repo_failure_isolation c6Rc (some ["a.txt"]) (some []) [c6Env]
  exact ⟨h.1, h.2.1 0 (by decide) (by decide), h.2.2.1 c6Env,
    h.2.2.2 c6Env (enoentMsg "a.txt") (by decide)⟩

/-! Helper lemmas about the top of `run`. -/

/-- With a valid trigger, a token and a readable commit id, `run` reaches
the mutual-exclusivity guard. -/
lemma runAction_reaches (cfg : RunConfig) (renv : RunEnv) (tok cid : String)
    (htr : cfg.triggerEventName = "push" ∨ cfg.triggerEventName = "workflow_dispatch")
    (htok : cfg.gitHubToken = some tok)
    (hcid : computeCommitId cfg = .ok cid) :
    runAction cfg renv = runChecked cfg renv cid := by
  have h1 : ¬(cfg.triggerEventName ≠ "push" ∧ cfg.triggerEventName ≠ "workflow_dispatch") := by
    rcases htr with h | h <;> simp [h]
  unfold runAction
  rw [if_neg h1]
  simp only [htok, hcid]

/-- In removal mode the file-selection step is skipped and both variables
stay undefined. -/
lemma fileSelectionStep_removal (cfg : RunConfig) (renv : RunEnv)
    (hrem : cfg.patternsToRemove ≠ "") :
    fileSelectionStep cfg renv = ([], .ok (some (none, none))) := by
  unfold fileSelectionStep
  rw [if_pos hrem]

/-- With `filesToReplicate` undefined a non-ignored repository throws at
the `for...of` before any call. -/
lemma processRepo_none_ftr (rc : RepoConfig) (ftrm : Option (List String))
    (env : RepoEnv) (hig : env.ignored = false) :
    processRepo rc none ftrm env =
      ⟨[], [], some "TypeError: filesToReplicate is not iterable"⟩ := by
  simp [processRepo, hig, diffStep]

/-- With `filesToReplicate` undefined the caught outcome of a non-ignored
repository is exactly the warning line. -/
lemma processRepoCaught_none_ftr (rc : RepoConfig) (ftrm : Option (List String))
    (env : RepoEnv) (hig : env.ignored = false) :
    processRepoCaught rc none ftrm env =
      ⟨[⟨.warning, "Failed replicating files for this repo: TypeError: filesToReplicate is not iterable"⟩],
       [], none⟩ := by
  have hp := processRepo_none_ftr rc ftrm env hig
  unfold processRepoCaught
  rw [hp]
  decide

/-- With `filesToReplicate` undefined no repository performs any call. -/
lemma processRepoCaught_none_events (rc : RepoConfig) (ftrm : Option (List String))
    (env : RepoEnv) : (processRepoCaught rc none ftrm env).events = [] := by
  cases hig : env.ignored with
  | true => simp [processRepoCaught, processRepo, hig]
  | false => rw [processRepoCaught_none_ftr rc ftrm env hig]

/-- With `filesToReplicate` undefined the whole loop performs no call. -/
lemma runRepos_none_events (rc : RepoConfig) (ftrm : Option (List String)) :
    ∀ envs : List RepoEnv,
      ((runRepos rc none ftrm envs).map ProcOut.events).flatten = ([] : List Event)
  | [] => rfl
  | e :: rest => by
    simp [runRepos, processRepoCaught_none_events, runRepos_none_events rc ftrm rest]

/-- Claim C7: when both patterns_to_include and patterns_to_remove are
non-empty (and the run gets past trigger validation, the token input and
the commit-id read, none of which touch the network), the run fails with
the mutual-exclusivity configuration error, performs zero network calls and
processes zero repositories. -/
theorem c7_mutually_exclusive_fails_before_network (cfg : RunConfig) (renv : RunEnv)
    (tok cid : String)
    (htr : cfg.triggerEventName = "push" ∨ cfg.triggerEventName = "workflow_dispatch")
    (htok : cfg.gitHubToken = some tok)
    (hcid : computeCommitId cfg = .ok cid)
    (hrem : cfg.patternsToRemove ≠ "")
    (hinc : cfg.patternsToInclude ≠ "") :
    runAction cfg renv = (.failed mutualExclusiveMsg, [], []) := by
  rw [runAction_reaches cfg renv tok cid htr htok hcid]
  unfold runChecked
  rw [if_pos ⟨hrem, hinc⟩]

/-- Run configuration with both include and remove patterns set. -/
def c7Cfg : RunConfig :=
  ⟨"push", some "tok", "", "docs/*", "legacy/*.yml", "sync files", "", "", "", none, ["c1"]⟩

/-- Run environment for the C7 witness (its oracles are never consulted). -/
def c7Renv : RunEnv := ⟨.ok ([], []), .error "unused", .ok []⟩

/-- Witness for C7 at a concrete configuration. -/
theorem c7_mutually_exclusive_fails_before_network_witness :
    runAction c7Cfg c7Renv = (.failed mutualExclusiveMsg, [], []) :=
  c7_mutually_exclusive_fails_before_network c7Cfg c7Renv "tok" "c1"
    (Or.inl rfl) rfl rfl (by decide) (by decide)

/-- Claim C2: in removal mode (patterns_to_remove non-empty,
patterns_to_include empty) the selection step never runs — the only events
of the whole run are the repository-listing call — and every non-ignored
repository ends as an isolated failure: its processing throws the
`for...of` TypeError before any remote existence check, deletion, branch,
commit or PR call, and the loop records only the warning line for it. -/
theorem c2_removal_mode_isolated_failure (cfg : RunConfig) (renv : RunEnv)
    (tok cid : String) (evs2 : List Event) (repos : List RepoEnv)
    (htr : cfg.triggerEventName = "push" ∨ cfg.triggerEventName = "workflow_dispatch")
    (htok : cfg.gitHubToken = some tok)
    (hcid : computeCommitId cfg = .ok cid)
    (hrem : cfg.patternsToRemove ≠ "")
    (hinc : cfg.patternsToInclude = "")
    (hsel : selectedRepos cfg renv = (evs2, .ok repos)) :
    runAction cfg renv =
      (.ok, evs2,
       runRepos ⟨cfg.destination, cfg.customBranchName, cid, cfg.commitMessage⟩ none none repos) ∧
    (∀ e ∈ evs2, e = Event.listReposEv ∨ e = Event.getRepoEv) ∧
    (∀ env ∈ repos, env.ignored = false →
      processRepoCaught ⟨cfg.destination, cfg.customBranchName, cid, cfg.commitMessage⟩
          none none env =
        ⟨[⟨.warning, "Failed replicating files for this repo: TypeError: filesToReplicate is not iterable"⟩],
         [], none⟩) := by
  refine ⟨?_, ?_, ?_⟩
  · rw [runAction_reaches cfg renv tok cid htr htok hcid]
    unfold runChecked
    rw [if_neg (by simp [hinc])]
    unfold runSelection
    rw [fileSelectionStep_removal cfg renv hrem]
    unfold runWithSelection
    rw [hsel]
    simp [runRepos_none_events]
  · intro e he
    unfold selectedRepos at hsel
    split at hsel
    · injection hsel with h1 h2
      subst h1
      simp at he
      subst he
      exact Or.inr rfl
    · injection hsel with h1 h2
      subst h1
      simp at he
      subst he
      exact Or.inl rfl
  · intro env _ hig
    exact processRepoCaught_none_ftr _ none env hig

/-- Run configuration in removal mode. -/
def c2Cfg : RunConfig :=
  ⟨"push", some "tok", "", "", "legacy/*.yml", "sync files", "", "", "", none, ["c1"]⟩

/-- A non-ignored repository for the C2 witness. -/
def c2RepoEnv : RepoEnv :=
  { name := "spokeA", defaultBranch := "main", ignored := false,
    remote := fun _ => .missing, localFiles := fun _ => none,
    defaultHeadOid := .ok "d0", createRef := .ok,
    commitHeadOid := fun _ => .ok "h0",
    commitResp := fun _ => .ok "curl", pr := fun _ => .ok "purl" }

/-- Run environment listing exactly one repository. -/
def c2Renv : RunEnv := ⟨.ok ([], []), .error "unused", .ok [c2RepoEnv]⟩

/-- Witness for C2 at a concrete removal-mode configuration. -/
theorem c2_removal_mode_isolated_failure_witness :
    runAction c2Cfg c2Renv =
      (.ok, [Event.listReposEv], runRepos ⟨"", "", "c1", "sync files"⟩ none none [c2RepoEnv]) ∧
    processRepoCaught ⟨"", "", "c1", "sync files"⟩ none none c2RepoEnv =
      ⟨[⟨.warning, "Failed replicating files for this repo: TypeError: filesToReplicate is not iterable"⟩],
       [], none⟩ := by
  have h := c2_removal_mode_isolated_failure c2Cfg c2Renv "tok" "c1"
    [Event.listReposEv] [c2RepoEnv] (Or.inl rfl) rfl rfl (by decide) rfl rfl
  exact ⟨h.1, h.2.2 c2RepoEnv (by simp) rfl⟩

/-! Helper lemmas about the mutation phase. -/

/-- Whenever `createBranch` succeeds (freshly created or pre-existing
branch), the orchestration enters the commit step: its log line is always
produced, whatever the commit outcome. -/
lemma mutationPhase_commit_log (rc : RepoConfig) (env : RepoEnv)
    (fc : List (List FileAddition) × List (List FileDeletion)) (already : Bool)
    (hb : (createBranchEmbed env (getBranchName rc.customBranchName rc.commitId)).res =
      .ok already) :
    (⟨.info, "Committing changes to the " ++ env.name ++ " repository"⟩ : LogEntry) ∈
      (mutationPhase rc env fc).logs := by
  simp only [mutationPhase]
  rw [hb]
  cases hc : (commitFilesLoop env.name (getBranchName rc.customBranchName rc.commitId)
      env.commitHeadOid env.commitResp 10 0).2 with
  | error m => simp [commitFilesEmbed, hc]
  | ok u => simp [commitFilesEmbed, hc]

/-- When `createBranch` throws, the mutation phase stops there: the thrown
error is the phase error and no further call is made. -/
lemma mutationPhase_branch_error (rc : RepoConfig) (env : RepoEnv)
    (fc : List (List FileAddition) × List (List FileDeletion)) (em : String)
    (hb : (createBranchEmbed env (getBranchName rc.customBranchName rc.commitId)).res =
      .error em) :
    (mutationPhase rc env fc).err = some em ∧
    (mutationPhase rc env fc).events =
      (createBranchEmbed env (getBranchName rc.customBranchName rc.commitId)).events := by
  simp only [mutationPhase]
  rw [hb]
  exact ⟨rfl, rfl⟩

/-- When the diff found changes and the repository is not ignored, the loop
body is the diff followed by the mutation phase. -/
lemma processRepo_mutation (rc : RepoConfig) (ftr ftrm : Option (List String))
    (env : RepoEnv) (devs : List Event) (aP : List (List FileAddition))
    (dP : List (List FileDeletion)) (hig : env.ignored = false)
    (hd : diffStep rc.destination ftr ftrm env = ⟨devs, aP, dP, none⟩)
    (hne : ¬(aP.isEmpty ∧ dP.isEmpty)) :
    processRepo rc ftr ftrm env =
      ⟨(mutationPhase rc env (aP, dP)).logs, devs ++ (mutationPhase rc env (aP, dP)).events,
       (mutationPhase rc env (aP, dP)).err⟩ := by
  simp only [processRepo, hig]
  rw [hd]
  simp [hne]
  intro h1 h2
  exact absurd ⟨by simp [h1], by simp [h2]⟩ hne

/-- Claim C8: `createBranch` creates the sync ref at the fetched
default-branch head oid; a 422 from the ref creation yields
`alreadyExisted = true` without error and the orchestration still enters
the commit step; ref creation succeeding yields `false`; any other failure
(with or without an HTTP status) throws the wrapped branch error, which
aborts that repository (no commit attempted) but is caught by the loop, so
it is fatal to that repository only. -/
theorem c8_branch_creation_policy (rc : RepoConfig) (env : RepoEnv) (bn oid : String)
    (hoid : env.defaultHeadOid = .ok oid) :
    (createBranchEmbed env bn).events =
      [Event.getRefOidEv env.defaultBranch, Event.createRefEv bn oid] ∧
    (env.createRef = .ok → (createBranchEmbed env bn).res = .ok false) ∧
    (∀ m, env.createRef = .errStatus 422 m → (createBranchEmbed env bn).res = .ok true) ∧
    (∀ s m, env.createRef = .errStatus s m → s ≠ 422 →
      (createBranchEmbed env bn).res =
        .error ("Unable to create a branch " ++ bn ++ " in the " ++ env.name ++ " repository: " ++ m)) ∧
    (∀ m, env.createRef = .errNoStatus m →
      (createBranchEmbed env bn).res =
        .error ("Unable to create a branch " ++ bn ++ " in the " ++ env.name ++ " repository: " ++ m)) ∧
    (∀ (m : String) (fc : List (List FileAddition) × List (List FileDeletion)),
      env.createRef = .errStatus 422 m →
      (⟨.info, "Committing changes to the " ++ env.name ++ " repository"⟩ : LogEntry) ∈
        (mutationPhase rc env fc).logs) ∧
    (∀ (em : String) (ftr ftrm : Option (List String)) (devs : List Event)
        (aP : List (List FileAddition)) (dP : List (List FileDeletion)),
      (createBranchEmbed env (getBranchName rc.customBranchName rc.commitId)).res = .error em →
      env.ignored = false →
      diffStep rc.destination ftr ftrm env = ⟨devs, aP, dP, none⟩ →
      ¬(aP.isEmpty ∧ dP.isEmpty) →
      (processRepo rc ftr ftrm env).err = some em ∧
      (processRepo rc ftr ftrm env).events =
        devs ++ (createBranchEmbed env (getBranchName rc.customBranchName rc.commitId)).events ∧
      (processRepoCaught rc ftr ftrm env).err = none) := by
  refine ⟨?_, ?_, ?_, ?_, ?_, ?_, ?_⟩
  · unfold createBranchEmbed
    rw [hoid]
    cases env.createRef with
    | ok => rfl
    | errStatus s m => by_cases hs : s = 422 <;> simp [hs]
    | errNoStatus m => rfl
  · intro hcr
    unfold createBranchEmbed
    rw [hoid, hcr]
  · intro m hcr
    unfold createBranchEmbed
    rw [hoid, hcr]
    simp
  · intro s m hcr hs
    unfold createBranchEmbed
    rw [hoid, hcr]
    simp [hs]
  · intro m hcr
    unfold createBranchEmbed
    rw [hoid, hcr]
  · intro m fc hcr
    have hb : (createBranchEmbed env (getBranchName rc.customBranchName rc.commitId)).res =
        .ok true := by
      unfold createBranchEmbed
      rw [hoid, hcr]
      simp
    exact mutationPhase_commit_log rc env fc true hb
  · intro em ftr ftrm devs aP dP hberr hig hd hne
    have hp := processRepo_mutation rc ftr ftrm env devs aP dP hig hd hne
    have hm := mutationPhase_branch_error rc env (aP, dP) em hberr
    refine ⟨?_, ?_, processRepoCaught_err rc ftr ftrm env⟩
    · rw [hp]
      exact hm.1
    · rw [hp]
      simp [hm.2]

/-- Repository configuration for the C8 witness. -/
def c8Rc : RepoConfig := ⟨"", "", "abc123", "sync files"⟩

/-- A repository whose ref creation reports 422: the sync branch already
exists. -/
def c8Env : RepoEnv :=
  { name := "spoke8", defaultBranch := "main", ignored := false,
    remote := fun _ => .missing,
    localFiles := fun p => if p = "a.txt" then some "x" else none,
    defaultHeadOid := .ok "d0", createRef := .errStatus 422 "Reference already exists",
    commitHeadOid := fun _ => .ok "h0",
    commitResp := fun _ => .ok "curl", pr := fun _ => .ok "purl" }

/-- Witness for C8 at a concrete repository whose branch pre-exists. -/
theorem c8_branch_creation_policy_witness :
    (createBranchEmbed c8Env "sync/abc123").events =
      [Event.getRefOidEv "main", Event.createRefEv "sync/abc123" "d0"] ∧
    (createBranchEmbed c8Env "sync/abc123").res = .ok true ∧
    (⟨.info, "Committing changes to the spoke8 repository"⟩ : LogEntry) ∈
      (mutationPhase c8Rc c8Env ([], [])).logs := by
  have h := c8_branch_creation_policy c8Rc c8Env "sync/abc123" "d0" rfl
  exact ⟨h.1, h.2.2.1 "Reference already exists" rfl,
    h.2.2.2.2.2.1 "Reference already exists" ([], []) rfl⟩

/-- Claim C5 (amended): after branch and commit succeed and the PR step
fails with a non-retryable error, the failure is non-fatal in both cases
and every line logged is informational: with a pre-existing branch the
"PR creation ... failed as the branch was there already" line, with a
freshly created branch the "Unable to create a PR because of timeouts"
line suggesting manual PR creation — in neither case a warning. -/
theorem c5_pr_failure_nonfatal_info (rc : RepoConfig) (env : RepoEnv) (oid cu m : String)
    (fc : List (List FileAddition) × List (List FileDeletion))
    (hoid : env.defaultHeadOid = .ok oid)
    (hcommit : (commitFilesLoop env.name (getBranchName rc.customBranchName rc.commitId)
        env.commitHeadOid env.commitResp 10 0).2 = .ok (some cu))
    (hpr : (createPrEmbed env.pr).res = .error m) :
    (env.createRef = .ok →
      (mutationPhase rc env fc).err = none ∧
      (∀ l ∈ (mutationPhase rc env fc).logs, l.level = .info) ∧
      (⟨.info, "Unable to create a PR because of timeouts. Create PR manually from the branch " ++
          getBranchName rc.customBranchName rc.commitId ++ " that was already created in the upstream"⟩ : LogEntry) ∈
        (mutationPhase rc env fc).logs) ∧
    (∀ m2, env.createRef = .errStatus 422 m2 →
      (mutationPhase rc env fc).err = none ∧
      (∀ l ∈ (mutationPhase rc env fc).logs, l.level = .info) ∧
      (⟨.info, "PR creation for " ++ env.name ++ " failed as the branch was there already. Insted only push was performed to existing " ++
          getBranchName rc.customBranchName rc.commitId ++ " branch"⟩ : LogEntry) ∈
        (mutationPhase rc env fc).logs) := by
  constructor
  · intro hcr
    have hmut :
        mutationPhase rc env fc =
          ⟨[⟨.info, "Creating branch " ++ getBranchName rc.customBranchName rc.commitId ++
              " in the " ++ env.name ++ " repository"⟩,
            ⟨.info, "Branch " ++ getBranchName rc.customBranchName rc.commitId ++
              " was created in the " ++ env.name ++ " repo"⟩,
            ⟨.info, "Committing changes to the " ++ env.name ++ " repository"⟩,
            ⟨.info, "Commit was created in the " ++ env.name ++ " repo -> " ++ cu⟩,
            ⟨.info, "Unable to create a PR because of timeouts. Create PR manually from the branch " ++
              getBranchName rc.customBranchName rc.commitId ++ " that was already created in the upstream"⟩],
           (createBranchEmbed env (getBranchName rc.customBranchName rc.commitId)).events ++
             (commitFilesLoop env.name (getBranchName rc.customBranchName rc.commitId)
               env.commitHeadOid env.commitResp 10 0).1 ++ (createPrEmbed env.pr).events,
           none⟩ := by
      simp only [mutationPhase, commitFilesEmbed, hcommit, hpr, Option.getD]
      simp only [createBranchEmbed, hoid, hcr]
      simp [prTruthy]
    rw [hmut]
    refine ⟨rfl, ?_, ?_⟩
    · intro l hl
      simp only [List.mem_cons, List.not_mem_nil, or_false] at hl
      rcases hl with h | h | h | h | h <;> subst h <;> rfl
    · simp
  · intro m2 hcr
    have hmut :
        mutationPhase rc env fc =
          ⟨[⟨.info, "Creating branch " ++ getBranchName rc.customBranchName rc.commitId ++
              " in the " ++ env.name ++ " repository"⟩,
            ⟨.info, "Branch " ++ getBranchName rc.customBranchName rc.commitId ++
              " already exists in the " ++ env.name ++ " repository"⟩,
            ⟨.info, "Branch " ++ getBranchName rc.customBranchName rc.commitId ++
              " already exists in the " ++ env.name ++ " repo"⟩,
            ⟨.info, "Committing changes to the " ++ env.name ++ " repository"⟩,
            ⟨.info, "Commit was created in the " ++ env.name ++ " repo -> " ++ cu⟩,
            ⟨.info, "PR creation for " ++ env.name ++ " failed as the branch was there already. Insted only push was performed to existing " ++
              getBranchName rc.customBranchName rc.commitId ++ " branch"⟩,
            ⟨.info, "Workflow finished without PR creation for " ++ env.name ++
              ". Insted push was performed to existing " ++
              getBranchName rc.customBranchName rc.commitId ++ " branch"⟩],
           (createBranchEmbed env (getBranchName rc.customBranchName rc.commitId)).events ++
             (commitFilesLoop env.name (getBranchName rc.customBranchName rc.commitId)
               env.commitHeadOid env.commitResp 10 0).1 ++ (createPrEmbed env.pr).events,
           none⟩ := by
      simp only [mutationPhase, commitFilesEmbed, hcommit, hpr, Option.getD]
      simp only [createBranchEmbed, hoid, hcr]
      simp [prTruthy]
    rw [hmut]
    refine ⟨rfl, ?_, ?_⟩
    · intro l hl
      simp only [List.mem_cons, List.not_mem_nil, or_false] at hl
      rcases hl with h | h | h | h | h | h | h <;> subst h <;> rfl
    · simp

/-- Witness for the amended C5 at the concrete fresh-branch repository. -/
theorem c5_pr_failure_nonfatal_info_witness :
    (mutationPhase c5Rc c5Env ([], [])).err = none ∧
    (⟨.info, "Unable to create a PR because of timeouts. Create PR manually from the branch " ++
        getBranchName "" "abc123" ++ " that was already created in the upstream"⟩ : LogEntry) ∈
      (mutationPhase c5Rc c5Env ([], [])).logs := by
  have h := c5_pr_failure_nonfatal_info c5Rc c5Env "d0" "curl"
    "Unable to create a PR: Error: boom" ([], []) rfl (by decide) (by decide)
  exact ⟨(h.1 rfl).1, (h.1 rfl).2.2⟩

/-- Characterization of the `createPr` retry loop, by induction on the
remaining retries: some number `k ≤ fuel` of attempts is made, each
preceded by the 5 second sleep; all attempts strictly before the last one
hit the retryable "was submitted too quickly" error; an error result means
the k-th attempt failed non-retryably (aborting at once); a url result
means the k-th attempt succeeded; an undefined result means every attempt
was retryable. -/
lemma createPrLoop_spec (pr : Nat → PrResult) :
    ∀ fuel count : Nat, ∃ k, k ≤ fuel ∧
      (createPrLoop pr fuel count).events = prTrace count k ∧
      (∀ j, count < j → j < count + k → pr j = .tooQuickly) ∧
      (∀ m, (createPrLoop pr fuel count).res = .error m →
        ∃ s, pr (count + k) = .otherErr s ∧ m = "Unable to create a PR: Error: " ++ s) ∧
      (∀ url, (createPrLoop pr fuel count).res = .ok (some url) → pr (count + k) = .ok url) ∧
      ((createPrLoop pr fuel count).res = .ok none →
        ∀ j, count < j → j ≤ count + k → pr j = .tooQuickly) := by
  intro fuel
  induction fuel with
  | zero =>
    intro count
    refine ⟨0, Nat.le_refl 0, rfl, ?_, ?_, ?_, ?_⟩
    · intro j h1 h2
      exfalso
      omega
    · intro m h
      simp [createPrLoop] at h
    · intro url h
      simp [createPrLoop] at h
    · intro _ j h1 h2
      exfalso
      omega
  | succ fuel ih =>
    intro count
    cases hp : pr (count + 1) with
    | ok url =>
      refine ⟨1, by omega, ?_, ?_, ?_, ?_, ?_⟩
      · simp [createPrLoop, hp, prTrace]
      · intro j h1 h2
        exfalso
        omega
      · intro m h
        simp [createPrLoop, hp] at h
      · intro u h
        simp [createPrLoop, hp] at h
        rw [← h]
        simpa using hp
      · intro h
        simp [createPrLoop, hp] at h
    | otherErr s0 =>
      refine ⟨1, by omega, ?_, ?_, ?_, ?_, ?_⟩
      · simp [createPrLoop, hp, prTrace]
      · intro j h1 h2
        exfalso
        omega
      · intro m h
        simp [createPrLoop, hp] at h
        exact ⟨s0, by simpa using hp, by simp [h]⟩
      · intro u h
        simp [createPrLoop, hp] at h
      · intro h
        simp [createPrLoop, hp] at h
    | tooQuickly =>
      obtain ⟨k, hk, hev, hmid, herr, hoks, hokn⟩ := ih (count + 1)
      have hres : (createPrLoop pr (fuel + 1) count).res =
          (createPrLoop pr fuel (count + 1)).res := by
        simp [createPrLoop, hp]
      have hadd : count + (k + 1) = (count + 1) + k := by omega
      refine ⟨k + 1, by omega, ?_, ?_, ?_, ?_, ?_⟩
      · simp [createPrLoop, hp, prTrace, hev]
      · intro j h1 h2
        rcases Nat.eq_or_lt_of_le (Nat.succ_le_of_lt h1) with he | hlt
        · rw [← he]
          exact hp
        · exact hmid j hlt (by omega)
      · intro m h
        rw [hres] at h
        obtain ⟨s, hs, hm⟩ := herr m h
        exact ⟨s, by rwa [hadd], hm⟩
      · intro url h
        rw [hres] at h
        have := hoks url h
        rwa [hadd]
      · intro h j h1 h2
        rw [hres] at h
        rcases Nat.eq_or_lt_of_le (Nat.succ_le_of_lt h1) with he | hlt
        · rw [← he]
          exact hp
        · exact hokn h j hlt (by omega)

/-- Claim C10: `createPr` makes at most 5 attempts, each preceded by the
5 second wait (visible in the `prTrace` shape of its events); every attempt
before the last returned the retryable "was submitted too quickly" error;
an error result means the final attempt raised a non-retryable error, which
aborted the step immediately on its first occurrence. -/
theorem c10_pr_retry_policy (pr : Nat → PrResult) :
    ∃ k, k ≤ 5 ∧ (createPrEmbed pr).events = prTrace 0 k ∧
      (∀ j, 0 < j → j < k → pr j = .tooQuickly) ∧
      (∀ m, (createPrEmbed pr).res = .error m →
        ∃ s, pr k = .otherErr s ∧ m = "Unable to create a PR: Error: " ++ s) ∧
      (∀ url, (createPrEmbed pr).res = .ok (some url) → pr k = .ok url) ∧
      ((createPrEmbed pr).res = .ok none → ∀ j, 0 < j → j ≤ k → pr j = .tooQuickly) := by
  obtain ⟨k, hk, hev, hmid, herr, hoks, hokn⟩ := createPrLoop_spec pr 5 0
  refine ⟨k, hk, hev, fun j h1 h2 => hmid j h1 (by omega), ?_, ?_, ?_⟩
  · intro m h
    obtain ⟨s, hs, hm⟩ := herr m h
    exact ⟨s, by simpa using hs, hm⟩
  · intro url h
    have := hoks url h
    simpa using this
  · intro h j h1 h2
    exact hokn h j h1 (by omega)

end ManageFiles
